import Mathlib

/-!
Verification development for the GatewayLora2Ch dual-radio LoRaWAN
packet-forwarder gateway (ESP32 + 2x SX1276).

The definitions below are shallow embeddings of the C sources:
  * `packet_forwarder.c`  (Semtech UDP protocol engine)
  * `channel_manager.c`   (dual-radio TX scheduling)
  * `lora_gateway.c`      (gateway core, stats, queues)
  * `sx1276.c`            (radio driver, DIO0 interrupt handler)
  * `gateway_config.c`    (defaults, EUI derivation)

Machine integers are modelled as `Nat`/`Int` with explicit `% 2^w`
where wraparound matters.  C `>> k` on unsigned values is embedded as
division by `2^k` (written as a literal), and `& (2^k - 1)` as `% 2^k`.
-/

/-- Error results of the ESP-IDF style API (`esp_err_t`), restricted to
the codes the embedded functions actually return. -/
inductive EspErr where
  | ok
  | fail
  | invalidArg
  | invalidState
  | noMem
  | notFound
deriving DecidableEq, Repr

/-! ## Base64 (packet_forwarder.c, `encode_base64` / `decode_base64`) -/

/-- The encoding table `b64_table` of packet_forwarder.c: the standard
base64 alphabet. -/
def b64_table : List Char :=
  ("ABCDEFGHIJKLMNOPQRSTUVWXYZabcdefghijklmnopqrstuvwxyz0123456789+/").toList

/-- `encode_base64` of packet_forwarder.c.  The C loop consumes the input
three bytes at a time; `i + 1 < len` / `i + 2 < len` decide whether the
third/fourth output characters are data or `'='` padding.  `n >> k & 0x3F`
is embedded as `n / 2^k % 64`. -/
def encode_base64 : List Nat → List Char
  | [] => []
  | [a] =>
      let n := a * 65536
      [b64_table.getD (n / 262144 % 64) 'A',
       b64_table.getD (n / 4096 % 64) 'A', '=', '=']
  | [a, b] =>
      let n := a * 65536 + b * 256
      [b64_table.getD (n / 262144 % 64) 'A',
       b64_table.getD (n / 4096 % 64) 'A',
       b64_table.getD (n / 64 % 64) 'A', '=']
  | a :: b :: c :: rest =>
      let n := a * 65536 + b * 256 + c
      b64_table.getD (n / 262144 % 64) 'A' ::
      b64_table.getD (n / 4096 % 64) 'A' ::
      b64_table.getD (n / 64 % 64) 'A' ::
      b64_table.getD (n % 64) 'A' :: encode_base64 rest

/-- The per-character value table of `decode_base64` (the chain of
range tests in the C source); every character outside the alphabet,
including `'='`, maps to 0 exactly as in the source. -/
def b64_char_val (c : Char) : Nat :=
  if 'A' ≤ c ∧ c ≤ 'Z' then c.toNat - 65
  else if 'a' ≤ c ∧ c ≤ 'z' then c.toNat - 97 + 26
  else if '0' ≤ c ∧ c ≤ '9' then c.toNat - 48 + 52
  else if c = '+' then 62
  else if c = '/' then 63
  else 0

/-- One group of up to three output bytes of `decode_base64`: the three
guarded writes `if (out_len < max_len ...) output[out_len++] = ...` with
`cap` the remaining room in the output buffer.  `c2`/`c3` are the third
and fourth characters of the current input group (the source compares
`input[i+2]`/`input[i+3]` against `'='`). -/
def decode_group (n : Nat) (c2 c3 : Char) (cap : Nat) : List Nat :=
  let o1 : List Nat := if 0 < cap then [n / 65536 % 256] else []
  let o2 : List Nat :=
    if o1.length < cap ∧ c2 ≠ '=' then [n / 256 % 256] else []
  let o3 : List Nat :=
    if o1.length + o2.length < cap ∧ c3 ≠ '=' then [n % 256] else []
  o1 ++ o2 ++ o3

/-- The loop of `decode_base64`: four input characters per iteration,
`n = (n << 6) | v` folded over the characters of the group that exist
(`j < 4 && (i + j) < len`), stopping when the output bound is reached
(`out_len < max_len` in the loop condition).  When the source would read
`input[i+2]`/`input[i+3]` past the end of a short final group, the
embedding supplies `'\x00'` (any non-`'='` character gives the same
guarded-write behaviour). -/
def decode_base64_go : List Char → Nat → List Nat
  | [], _ => []
  | _ :: _, 0 => []
  | [c0], cap =>
      decode_group (b64_char_val c0) '\x00' '\x00' cap
  | [c0, c1], cap =>
      decode_group (b64_char_val c0 * 64 + b64_char_val c1) '\x00' '\x00' cap
  | [c0, c1, c2], cap =>
      decode_group
        ((b64_char_val c0 * 64 + b64_char_val c1) * 64 + b64_char_val c2)
        c2 '\x00' cap
  | c0 :: c1 :: c2 :: c3 :: rest, cap =>
      decode_group
        (((b64_char_val c0 * 64 + b64_char_val c1) * 64 +
          b64_char_val c2) * 64 + b64_char_val c3) c2 c3 cap ++
      decode_base64_go rest
        (cap - (decode_group
          (((b64_char_val c0 * 64 + b64_char_val c1) * 64 +
            b64_char_val c2) * 64 + b64_char_val c3) c2 c3 cap).length)

/-- `decode_base64` of packet_forwarder.c: returns the decoded bytes; the
C function returns `out_len`, which is the length of this list, and
writes exactly these bytes into `output`. -/
def decode_base64 (input : List Char) (max_len : Nat) : List Nat :=
  decode_base64_go input max_len

/-! ## LoRa packet structures (lora_packet.h) -/

/-- `lora_modulation_t`. -/
structure LoraModulation where
  frequency : Nat
  bandwidth : Nat
  spreading_factor : Nat
  coding_rate : Nat
  invert_polarity : Bool
deriving DecidableEq, Repr

/-- `lora_rx_packet_t` (the gateway-side uplink descriptor).  The C `snr`
field is a float carrying the integer SNR from the driver; it is modelled
as `Int`. -/
structure LoraRxPkt where
  payload : List Nat
  payload_size : Nat
  modulation : LoraModulation
  rssi : Int
  snr : Int
  crc_ok : Bool
  timestamp : Nat
  tmst : Nat
  rf_chain : Nat
deriving DecidableEq, Repr

/-- `lora_tx_packet_t` (the downlink request). -/
structure LoraTxPkt where
  payload : List Nat
  payload_size : Nat
  modulation : LoraModulation
  tx_power : Int
  immediate : Bool
  tx_timestamp : Nat
  rf_chain : Nat
deriving DecidableEq, Repr

/-- `gateway_stats_t`: monotonic counters (timing fields omitted; no claim
touches them). -/
structure GatewayStats where
  rx_total : Nat
  rx_ok : Nat
  rx_bad : Nat
  rx_forwarded : Nat
  tx_total : Nat
  tx_ok : Nat
  tx_fail : Nat
  tx_collision : Nat
deriving DecidableEq, Repr

/-! ## SX1276 radio driver (sx1276.c) -/

/-- The modulation-relevant part of `sx1276_config_t` held in the device
structure and copied into every RX descriptor by the interrupt handler. -/
structure Sx1276Config where
  frequency : Nat
  sf : Nat
  bw : Nat
  cr : Nat
deriving DecidableEq, Repr

/-- `sx1276_rx_packet_t`: the descriptor the DIO0 interrupt handler fills
in and hands to the registered RX callback. -/
structure Sx1276RxPkt where
  data : List Nat
  length : Nat
  rssi : Int
  snr : Int
  frequency : Nat
  timestamp : Nat
  sf : Nat
  bw : Nat
  cr : Nat
  crc_ok : Bool
deriving DecidableEq, Repr

/-- A simulated DIO0 interrupt: the register values the handler reads and
the monotonic-clock value returned by `esp_timer_get_time()` at that
instant.  `fifo` is the byte stream a burst read of the RX FIFO delivers. -/
structure IsrEvent where
  irq_flags : Nat
  rx_nb_bytes : Nat
  fifo : List Nat
  pkt_rssi : Nat
  pkt_snr : Nat
  now : Nat
deriving DecidableEq, Repr

/-- Reinterpretation of a register byte as C `int8_t` (the cast
`(int8_t)sx1276_read_reg(...)` in the driver). -/
def int8_of_byte (b : Nat) : Int :=
  if b % 256 < 128 then (b % 256 : Nat) else (b % 256 : Nat) - 256

/-- The `RX_DONE` branch of `dio0_isr_handler` in sx1276.c, as the
descriptor it delivers to the RX callback: produced when `IRQ_RX_DONE`
(bit 0x40) is set in the IRQ-flags register.  `rssi` is the packet-RSSI
register minus 157, `snr` is the packet-SNR register cast to `int8_t`
and divided by 4 with C truncation toward zero (`Int.tdiv`), `crc_ok` is the
complement of the `IRQ_PAYLOAD_CRC_ERROR` bit (0x20), and the timestamp
is the microsecond clock at interrupt time.  Modulation data is copied
from the currently applied config. -/
def dio0_rx_done (cfg : Sx1276Config) (ev : IsrEvent) : Option Sx1276RxPkt :=
  if ev.irq_flags / 64 % 2 = 1 then
    some { data := ev.fifo.take ev.rx_nb_bytes
           length := ev.rx_nb_bytes
           rssi := (ev.pkt_rssi : Int) - 157
           snr := Int.tdiv (int8_of_byte ev.pkt_snr) 4
           frequency := cfg.frequency
           timestamp := ev.now
           sf := cfg.sf
           bw := cfg.bw
           cr := cfg.cr
           crc_ok := ev.irq_flags / 32 % 2 = 0 }
  else none

/-- A run of the interrupt handler over a sequence of simulated DIO0
events: the descriptors delivered to the RX callback, in order. -/
def dio0_rx_run (cfg : Sx1276Config) (events : List IsrEvent) :
    List Sx1276RxPkt :=
  events.filterMap (dio0_rx_done cfg)

/-- The register bytes written by `sx1276_set_tx_power` in sx1276.c,
together with the power value stored back into `handle->config.tx_power`.
`PA_BOOST | x` with `x < 16` is embedded as `128 + x`. -/
structure TxPowerWrites where
  pa_dac : Nat
  pa_config : Int
  ocp : Nat
  stored_power : Int
deriving DecidableEq, Repr

/-- `sx1276_set_tx_power` of sx1276.c.  `power > 17`: enable the +20 dBm
DAC (0x87), clamp to 20, `PA_CONFIG = PA_BOOST | (power - 5)`;
`14 < power ≤ 17`: default DAC (0x84), `PA_BOOST | (power - 2)`;
`power ≤ 14`: default DAC, clamp below to 2, `PA_BOOST | (power - 2)`.
In every branch the overcurrent-protection register gets 0x2B (100 mA). -/
def sx1276_set_tx_power (power : Int) : TxPowerWrites :=
  if power > 17 then
    let p := if power > 20 then 20 else power
    { pa_dac := 0x87, pa_config := 128 + (p - 5), ocp := 0x2B,
      stored_power := p }
  else if power > 14 then
    { pa_dac := 0x84, pa_config := 128 + (power - 2), ocp := 0x2B,
      stored_power := power }
  else
    let p := if power < 2 then 2 else power
    { pa_dac := 0x84, pa_config := 128 + (p - 2), ocp := 0x2B,
      stored_power := p }

/-! ## Channel manager (channel_manager.c) -/

/-- The state of `channel_manager.c`'s singleton `s_cm` (radio handles and
FreeRTOS objects abstracted away; the TX queue is the bounded FreeRTOS
queue of capacity `GATEWAY_TX_QUEUE_SIZE = 16`). -/
structure ChannelManagerState where
  running : Bool
  tx_queue : List LoraTxPkt
  tx_busy : Bool
  hopping_enabled : Bool
  current_channel : Nat
deriving DecidableEq, Repr

/-- `channel_manager_schedule_tx`: reject when not running; enqueue on the
bounded TX queue; a full queue drops the new packet and returns
`ESP_ERR_NO_MEM` (the 100 ms `xQueueSend` wait cannot free space in this
sequential model, so a full queue means the send fails). -/
def channel_manager_schedule_tx (cm : ChannelManagerState)
    (pkt : LoraTxPkt) : EspErr × ChannelManagerState :=
  if ¬cm.running then (.invalidState, cm)
  else if cm.tx_queue.length < 16 then
    (.ok, { cm with tx_queue := cm.tx_queue ++ [pkt] })
  else (.noMem, cm)

/-- Unsigned 32-bit subtraction `a - b` (C `uint32_t` arithmetic). -/
def u32_sub (a b : Nat) : Nat :=
  (a % 4294967296 + 4294967296 - b % 4294967296) % 4294967296

/-- Reinterpretation of a `uint32_t` as C `int32_t` (the cast
`(int32_t)(packet.tx_timestamp - current)` in `tx_task`). -/
def int32_of_uint32 (d : Nat) : Int :=
  if d % 4294967296 < 2147483648 then (d % 4294967296 : Nat)
  else (d % 4294967296 : Nat) - 4294967296

/-- What the TX worker does with a dequeued packet before transmitting. -/
inductive TxDecision where
  | transmitNow
  | waitUntilThenTransmit
  | skip
deriving DecidableEq, Repr

/-- The timing check of `tx_task` in channel_manager.c on a dequeued
packet: immediate packets go straight to transmission; otherwise
`delay = (int32_t)(packet.tx_timestamp - current)` and the worker waits
when `delay > 0 && delay < 5000000`, skips the packet (with only a log)
when `delay < -100000`, and falls through to an immediate transmission in
every other case. -/
def cm_tx_check_timing (immediate : Bool) (tx_timestamp now : Nat) :
    TxDecision :=
  if immediate then .transmitNow
  else
    let delay := int32_of_uint32 (u32_sub tx_timestamp now)
    if delay > 0 ∧ delay < 5000000 then .waitUntilThenTransmit
    else if delay < -100000 then .skip
    else .transmitNow

/-- One `tx_task` iteration's effect on the gateway statistics, paired
with the timing decision: the body of the loop in channel_manager.c never
references `s_gw.stats` (it touches only `tx_busy` and the TX mutex), so
the counters pass through unchanged on every path, including the skip
path. -/
def cm_tx_process_one (pkt : LoraTxPkt) (now : Nat)
    (stats : GatewayStats) : TxDecision × GatewayStats :=
  (cm_tx_check_timing pkt.immediate pkt.tx_timestamp now, stats)

/-! ## Gateway core (lora_gateway.c) -/

/-- The state of lora_gateway.c's singleton `s_gw` (radio handles, SPI and
task handles abstracted; the RX queue is the bounded FreeRTOS queue of
capacity `GATEWAY_RX_QUEUE_SIZE = 32`).  `inited` is the C `initialized`
flag. -/
structure GatewayState where
  inited : Bool
  running : Bool
  stats : GatewayStats
  rx_queue : List LoraRxPkt
  cm : ChannelManagerState
  start_time : Nat
deriving DecidableEq, Repr

/-- All-zero statistics (the `memset` in `lora_gateway_init`). -/
def zeroStats : GatewayStats :=
  { rx_total := 0, rx_ok := 0, rx_bad := 0, rx_forwarded := 0,
    tx_total := 0, tx_ok := 0, tx_fail := 0, tx_collision := 0 }

/-- `channel_manager_init`: zeroes `s_cm` and stores the radio handles
(abstracted); queue/mutex/timer creation is assumed to succeed. -/
def channel_manager_init : ChannelManagerState :=
  { running := false, tx_queue := [], tx_busy := false,
    hopping_enabled := false, current_channel := 0 }

/-- `channel_manager_start`: an early `ESP_OK` when already running,
otherwise task creation and RX start (assumed to succeed) and the running
flag is set. -/
def channel_manager_start (cm : ChannelManagerState) :
    EspErr × ChannelManagerState :=
  if cm.running then (.ok, cm)
  else (.ok, { cm with running := true })

/-- `lora_gateway_init` of lora_gateway.c.  An early `ESP_OK` when already
initialized; otherwise the state is zeroed and rebuilt.  `radios_ok`
abstracts the environment: SPI-bus setup and both `sx1276_init` calls
succeeding (on failure the source returns the underlying error with the
state left uninitialized). -/
def lora_gateway_init (s : GatewayState) (radios_ok : Bool) :
    EspErr × GatewayState :=
  if s.inited then (.ok, s)
  else if ¬radios_ok then (.notFound, s)
  else
    (.ok, { inited := true, running := false, stats := zeroStats,
            rx_queue := [], cm := channel_manager_init, start_time := 0 })

/-- `lora_gateway_start` of lora_gateway.c: lifecycle checks, RX task
creation (assumed to succeed), then `channel_manager_start`; `now` is the
microsecond clock used for `start_time` (stored in seconds). -/
def lora_gateway_start (s : GatewayState) (now : Nat) :
    EspErr × GatewayState :=
  if ¬s.inited then (.invalidState, s)
  else if s.running then (.ok, s)
  else
    let (err, cm') := channel_manager_start s.cm
    if err = .ok then
      (.ok, { s with cm := cm', running := true,
                     start_time := now / 1000000 })
    else (err, { s with cm := cm' })

/-- `lora_gateway_send` of lora_gateway.c: bumps `tx_total`, forwards to
`channel_manager_schedule_tx`, and on any rejection bumps `tx_fail`
(`last_tx_time` omitted: no claim touches it). -/
def lora_gateway_send (s : GatewayState) (pkt : LoraTxPkt) :
    EspErr × GatewayState :=
  if ¬s.running then (.invalidState, s)
  else
    let st1 := { s.stats with tx_total := s.stats.tx_total + 1 }
    let (ret, cm') := channel_manager_schedule_tx s.cm pkt
    if ret = .ok then (ret, { s with stats := st1, cm := cm' })
    else
      (ret, { s with stats := { st1 with tx_fail := st1.tx_fail + 1 },
                     cm := cm' })

/-- `lora_gateway_rx_handler` of lora_gateway.c (invoked from the radio
ISR path): bumps the RX counters and pushes the descriptor onto the
bounded RX queue with the non-blocking `xQueueSendFromISR`; when the
queue is full the new descriptor is dropped with only a log
(`last_rx_time` omitted: no claim touches it). -/
def lora_gateway_rx_handler (s : GatewayState) (pkt : LoraRxPkt) :
    GatewayState :=
  if ¬s.running then s
  else
    let st :=
      if pkt.crc_ok then
        { s.stats with rx_total := s.stats.rx_total + 1,
                       rx_ok := s.stats.rx_ok + 1 }
      else
        { s.stats with rx_total := s.stats.rx_total + 1,
                       rx_bad := s.stats.rx_bad + 1 }
    let q :=
      if s.rx_queue.length < 32 then s.rx_queue ++ [pkt] else s.rx_queue
    { s with stats := st, rx_queue := q }

/-! ## Protocol engine state (packet_forwarder.c) -/

/-- `pkt_fwd_config_t`. -/
structure PfConfig where
  server_host : String
  server_port : Nat
  gateway_eui : List Nat
  keepalive_interval_ms : Nat
  stat_interval_ms : Nat
deriving DecidableEq, Repr

/-- `forwarder_status_t`. -/
structure PfStatus where
  connected : Bool
  push_ack : Nat
  pull_ack : Nat
  latency_ms : Int
deriving DecidableEq, Repr

/-- The state of packet_forwarder.c's singleton `s_pf` (socket descriptor
abstracted to `sock_open`; task and timer handles omitted).  `inited` is
the C `initialized` flag; `last_pull_ack` is the `int64_t` microsecond
timestamp of the last PULL_ACK. -/
structure PfState where
  config : PfConfig
  sock_open : Bool
  push_token : Nat
  pull_token : Nat
  uplink_queue : List LoraRxPkt
  status : PfStatus
  push_sent : Nat
  pull_sent : Nat
  last_pull_ack : Int
  inited : Bool
  running : Bool
deriving DecidableEq, Repr

/-- `pkt_fwd_init`: an early `ESP_OK` when already initialized; otherwise
`s_pf` is zeroed, the config copied in, and the uplink queue (capacity
32) and the two timers are created (assumed to succeed). -/
def pkt_fwd_init (s : PfState) (cfg : PfConfig) : EspErr × PfState :=
  if s.inited then (.ok, s)
  else
    (.ok, { config := cfg, sock_open := false, push_token := 0,
            pull_token := 0, uplink_queue := [],
            status := { connected := false, push_ack := 0, pull_ack := 0,
                        latency_ms := 0 },
            push_sent := 0, pull_sent := 0, last_pull_ack := 0,
            inited := true, running := false })

/-- `send_pull_data`: requires an open socket, bumps the 16-bit PULL token
before sending, and counts the send (a successful `sendto` is assumed). -/
def send_pull_data (s : PfState) : EspErr × PfState :=
  if ¬s.sock_open then (.invalidState, s)
  else
    (.ok, { s with pull_token := (s.pull_token + 1) % 65536,
                   pull_sent := s.pull_sent + 1 })

/-- `pkt_fwd_start`: lifecycle checks, then DNS resolution (`dns_ok`
abstracts the environment), socket creation, task/timer start, the
running flag, and an initial PULL_DATA. -/
def pkt_fwd_start (s : PfState) (dns_ok : Bool) : EspErr × PfState :=
  if ¬s.inited then (.invalidState, s)
  else if s.running then (.ok, s)
  else if ¬dns_ok then (.fail, s)
  else
    let s1 := { s with sock_open := true, running := true }
    (.ok, (send_pull_data s1).2)

/-- `pkt_fwd_send_uplink`: reject when not running; enqueue on the bounded
uplink queue (capacity 32); a full queue drops the new packet, logs
"Uplink queue full" and returns `ESP_ERR_NO_MEM` — no counter is touched
(the 100 ms `xQueueSend` wait cannot free space in this sequential
model, so a full queue means the send fails). -/
def pkt_fwd_send_uplink (s : PfState) (pkt : LoraRxPkt) :
    EspErr × PfState :=
  if ¬s.running then (.invalidState, s)
  else if s.uplink_queue.length < 32 then
    (.ok, { s with uplink_queue := s.uplink_queue ++ [pkt] })
  else (.noMem, s)

/-- The datagram dispatch of `rx_task` in packet_forwarder.c: datagrams
shorter than 4 bytes or with a wrong protocol version are ignored;
PUSH_ACK (0x01) counts; PULL_ACK (0x04) counts, sets `connected` and
records the receive time; PULL_RESP (0x03) is handed to
`handle_pull_resp` (modelled separately below — it sends TX_ACKs and
submits to the gateway but never writes the forwarder status, so the
`PfState` is unchanged here); unknown types are logged and ignored. -/
def pf_rx_dispatch (s : PfState) (now : Int) (buf : List Nat) : PfState :=
  if ¬s.running then s
  else if buf.length < 4 then s
  else if buf.getD 0 0 ≠ 2 then s
  else
    let ty := buf.getD 3 0
    if ty = 1 then
      { s with status := { s.status with push_ack := s.status.push_ack + 1 } }
    else if ty = 4 then
      { s with status := { s.status with pull_ack := s.status.pull_ack + 1,
                                         connected := true },
               last_pull_ack := now }
    else s

/-- `keepalive_callback` of packet_forwarder.c: inactive unless running;
sends a PULL_DATA (result ignored, as in the source), then declares the
server disconnected when no PULL_ACK arrived within the last 30 seconds
(`now - last_pull_ack > 30000000` µs). -/
def keepalive_callback (s : PfState) (now : Int) : PfState :=
  if ¬s.running then s
  else
    let s1 := (send_pull_data s).2
    if now - s1.last_pull_ack > 30000000 then
      if s1.status.connected then
        { s1 with status := { s1.status with connected := false } }
      else s1
    else s1

/-- An externally visible event of the protocol engine: an incoming UDP
datagram (processed by `rx_task`) or a keepalive-timer tick, each at a
monotonic microsecond instant. -/
inductive PfEvent where
  | udp (now : Int) (buf : List Nat)
  | keepalive (now : Int)
deriving DecidableEq, Repr

/-- Process one event. -/
def pf_step (s : PfState) (e : PfEvent) : PfState :=
  match e with
  | .udp now buf => pf_rx_dispatch s now buf
  | .keepalive now => keepalive_callback s now

/-- Process a trace of events in order. -/
def pf_run (s : PfState) : List PfEvent → PfState
  | [] => s
  | e :: es => pf_run (pf_step s e) es

/-- Whether an event is a well-formed PULL_ACK datagram (version 2,
type 0x04). -/
def isPullAckEvent : PfEvent → Prop
  | .udp _ buf => 4 ≤ buf.length ∧ buf.getD 0 0 = 2 ∧ buf.getD 3 0 = 4
  | .keepalive _ => False

instance : DecidablePred isPullAckEvent := by
  intro e
  cases e with
  | udp now buf => exact inferInstanceAs (Decidable (_ ∧ _ ∧ _))
  | keepalive now => exact inferInstanceAs (Decidable False)

/-! ## PULL_RESP handling (packet_forwarder.c, `handle_pull_resp`)

cJSON is an external library; it is modelled by a small JSON value type.
Numbers are modelled as integers: the only numeric fields read by
`handle_pull_resp` that a claim depends on are `tmst`, `powe` and `size`,
all integral on the wire.  The `freq` MHz→Hz conversion, the `datr`
`sscanf` and the `codr` parse involve doubles and C `sscanf`; they set
modulation fields no claim inspects and never branch the control flow of
the function, so the modelled `tx_pkt` keeps the zero-initialised
modulation for them (matching the `lora_tx_packet_t tx_pkt = {0}`
initialiser) except for `ipol`, which is modelled exactly. -/

/-- A parsed JSON value (the shape of a `cJSON` tree). -/
inductive Json where
  | null
  | bool (b : Bool)
  | num (v : Int)
  | str (s : String)
  | arr (items : List Json)
  | obj (fields : List (String × Json))
deriving Repr

/-- `cJSON_GetObjectItem`: `NULL` on a non-object, otherwise the first
field with the given name (the library's case handling is immaterial for
the fixed lower-case keys used here). -/
def cJSON_GetObjectItem (j : Json) (key : String) : Option Json :=
  match j with
  | .obj fields =>
      match fields.find? (fun f => f.1 = key) with
      | some f => some f.2
      | none => none
  | _ => none

/-- `cJSON_IsTrue` on an optional item: the C pattern
`item && cJSON_IsTrue(item)`. -/
def cJSON_opt_isTrue (j : Option Json) : Bool :=
  match j with
  | some (.bool b) => b
  | _ => false

/-- `item && cJSON_IsNumber(item)` followed by reading the value. -/
def cJSON_opt_num (j : Option Json) : Option Int :=
  match j with
  | some (.num v) => some v
  | _ => none

/-- `item && cJSON_IsString(item)` followed by reading the value. -/
def cJSON_opt_str (j : Option Json) : Option String :=
  match j with
  | some (.str v) => some v
  | _ => none

/-- The zero-initialised `lora_tx_packet_t tx_pkt = {0}`. -/
def zeroTxPkt : LoraTxPkt :=
  { payload := [], payload_size := 0,
    modulation := { frequency := 0, bandwidth := 0, spreading_factor := 0,
                    coding_rate := 0, invert_polarity := false },
    tx_power := 0, immediate := false, tx_timestamp := 0, rf_chain := 0 }

/-- The `txpk` field extraction of `handle_pull_resp`: builds the
`lora_tx_packet_t` from the parsed object.  `imme` and `ipol` use the
`item && cJSON_IsTrue(item)` pattern; `tmst` is cast to `uint32_t`;
`powe` defaults to 14 when absent; `data` is base64-decoded into the
payload with bound `LORA_MAX_PAYLOAD_SIZE = 255` and its length becomes
`payload_size`. -/
def parse_txpk (txpk : Json) : LoraTxPkt :=
  let p0 := zeroTxPkt
  let p1 := { p0 with immediate := cJSON_opt_isTrue (cJSON_GetObjectItem txpk ("imme")) }
  let p2 :=
    match cJSON_opt_num (cJSON_GetObjectItem txpk ("tmst")) with
    | some v => { p1 with tx_timestamp := v.toNat % 4294967296 }
    | none => p1
  let p3 :=
    match cJSON_GetObjectItem txpk ("powe") with
    | some (.num v) => { p2 with tx_power := v }
    | some _ => { p2 with tx_power := 0 }
    | none => { p2 with tx_power := 14 }
  let ipol := cJSON_opt_isTrue (cJSON_GetObjectItem txpk ("ipol"))
  let p4 :=
    { p3 with modulation := { p3.modulation with invert_polarity := ipol } }
  match cJSON_opt_str (cJSON_GetObjectItem txpk ("data")) with
  | some b64 =>
      let payload := decode_base64 b64.toList 255
      { p4 with payload := payload, payload_size := payload.length }
  | none => p4

/-- The outcome of `handle_pull_resp`: the TX_ACKs emitted via
`send_tx_ack(token, error)` (error `none` means the ACK carries no JSON
payload), the packet submitted to `lora_gateway_send` (when reached), and
the updated gateway state. -/
structure PullRespResult where
  acks : List (Nat × Option String)
  submitted : Option LoraTxPkt
  gw : GatewayState
deriving Repr

/-- `handle_pull_resp` of packet_forwarder.c, for a datagram that already
passed the `len < 4` guards of `rx_task` and `handle_pull_resp`.
`parsed` is the result of `cJSON_Parse` on the JSON text (the parser is
the external cJSON library): `none` when parsing fails.  On parse
failure: one TX_ACK with error INVALID_JSON.  Missing `txpk`: one TX_ACK
with error MISSING_TXPK.  Otherwise the parsed packet goes to
`lora_gateway_send`; `ESP_OK` yields one TX_ACK with no error and any
rejection yields one TX_ACK with error TX_FAILED. -/
def handle_pull_resp (gw : GatewayState) (token : Nat)
    (parsed : Option Json) : PullRespResult :=
  match parsed with
  | none => { acks := [(token, some ("INVALID_JSON"))], submitted := none, gw := gw }
  | some root =>
    match cJSON_GetObjectItem root ("txpk") with
    | none => { acks := [(token, some ("MISSING_TXPK"))], submitted := none, gw := gw }
    | some txpk =>
        let tx_pkt := parse_txpk txpk
        let (ret, gw') := lora_gateway_send gw tx_pkt
        if ret = .ok then
          { acks := [(token, none)], submitted := some tx_pkt, gw := gw' }
        else
          { acks := [(token, some ("TX_FAILED"))], submitted := some tx_pkt,
            gw := gw' }

/-- The `payload_size` of the packet `handle_pull_resp` submitted to the
gateway (0 when nothing was submitted). -/
def submittedPayloadSize (r : PullRespResult) : Nat :=
  (r.submitted.map LoraTxPkt.payload_size).getD 0

/-! ## Configuration defaults (gateway_config.c) -/

/-- The fields of `gw_config_defaults` the claims touch: the gateway EUI
synthesised from the 6-byte device MAC, and the LoRa defaults. -/
structure GwConfigDefaults where
  gateway_eui : List Nat
  subband : Nat
  rx_sf : Nat
  rx_bw : Nat
  tx_power : Int
  sync_word : Nat
deriving DecidableEq, Repr

/-- `gw_config_defaults` of gateway_config.c (EUI and LoRa block; WiFi,
Ethernet and server blocks omitted — no claim touches them).  The EUI is
`mac[0], mac[1], mac[2], 0xFF, 0xFE, mac[3], mac[4], mac[5]`. -/
def gw_config_defaults (mac : List Nat) : GwConfigDefaults :=
  { gateway_eui := [mac.getD 0 0, mac.getD 1 0, mac.getD 2 0, 0xFF, 0xFE,
                    mac.getD 3 0, mac.getD 4 0, mac.getD 5 0],
    subband := 2, rx_sf := 7, rx_bw := 0, tx_power := 14,
    sync_word := 0x34 }

/-! ## Concrete sample states (used by the closed instantiations below) -/

/-- A sample uplink descriptor. -/
def sampleRxPkt : LoraRxPkt :=
  { payload := [0x40, 0x11, 0x22], payload_size := 3,
    modulation := { frequency := 916800000, bandwidth := 0,
                    spreading_factor := 7, coding_rate := 1,
                    invert_polarity := false },
    rssi := -39, snr := 10, crc_ok := true, timestamp := 123456,
    tmst := 123456, rf_chain := 0 }

/-- A sample forwarder configuration. -/
def sampleCfg : PfConfig :=
  { server_host := ("router.ttn"), server_port := 1700,
    gateway_eui := [0xAA, 0xBB, 0xCC, 0xFF, 0xFE, 0x01, 0x02, 0x03],
    keepalive_interval_ms := 10000, stat_interval_ms := 30000 }

/-- The zeroed `s_pf` before `pkt_fwd_init` (static storage, `= {0}`). -/
def pfUninit : PfState :=
  { config := { server_host := (""), server_port := 0, gateway_eui := [],
                keepalive_interval_ms := 0, stat_interval_ms := 0 },
    sock_open := false, push_token := 0, pull_token := 0,
    uplink_queue := [], status := { connected := false, push_ack := 0,
                                    pull_ack := 0, latency_ms := 0 },
    push_sent := 0, pull_sent := 0, last_pull_ack := 0,
    inited := false, running := false }

/-- The forwarder state right after `pkt_fwd_init` + `pkt_fwd_start`
(successful DNS resolution). -/
def pf_boot (cfg : PfConfig) : PfState :=
  (pkt_fwd_start (pkt_fwd_init pfUninit cfg).2 true).2

/-- A running forwarder whose 32-slot uplink queue is full. -/
def pfFull : PfState :=
  { pf_boot sampleCfg with uplink_queue := List.replicate 32 sampleRxPkt }

/-- A running gateway whose channel manager is running with an empty
16-slot TX queue. -/
def gwRunning : GatewayState :=
  { inited := true, running := true, stats := zeroStats, rx_queue := [],
    cm := { running := true, tx_queue := [], tx_busy := false,
            hopping_enabled := false, current_channel := 0 },
    start_time := 0 }

/-- A running gateway whose 16-slot TX queue is full (the channel manager
is busy). -/
def gwBusy : GatewayState :=
  { gwRunning with cm := { gwRunning.cm with
      tx_queue := List.replicate 16 zeroTxPkt } }

/-- A minimal parsed PULL_RESP carrying an (empty) `txpk` object. -/
def sampleTxpkRoot : Json :=
  Json.obj [(("txpk"), Json.obj [])]

/-! # Theorems -/

/-! ## Base64 helper lemmas -/

/-- Decoding inverts the encoding table on all 64 alphabet indices. -/
theorem b64_val_of_table : ∀ i, i < 64 → b64_char_val (b64_table.getD i 'A') = i := by
  decide

/-- No alphabet character is the padding character. -/
theorem b64_table_getD_ne_pad : ∀ i, i < 64 → b64_table.getD i 'A' ≠ '=' := by
  decide

/-- Looking up any alphabet index lands in the table. -/
theorem b64_table_getD_mem : ∀ i, i < 64 → b64_table.getD i 'A' ∈ b64_table := by
  decide

/-- The padding character decodes to 0 (as in the source's value chain). -/
theorem b64_val_pad : b64_char_val '=' = 0 := by decide

/-- Each decode group writes at most `cap` bytes. -/
theorem decode_group_length_le (n : Nat) (c2 c3 : Char) (cap : Nat) :
    (decode_group n c2 c3 cap).length ≤ cap := by
  dsimp only [decode_group]
  split_ifs <;>
    simp only [List.length_append, List.length_singleton, List.length_nil,
               List.length_cons] at * <;>
    omega

/-- The decode loop writes at most `cap` bytes in total. -/
theorem decode_base64_go_length_le (input : List Char) (cap : Nat) :
    (decode_base64_go input cap).length ≤ cap := by
  induction input, cap using decode_base64_go.induct with
  | case1 cap => simp [decode_base64_go]
  | case2 input => simp [decode_base64_go]
  | case3 c0 cap => simpa [decode_base64_go] using decode_group_length_le _ _ _ _
  | case4 c0 c1 cap => simpa [decode_base64_go] using decode_group_length_le _ _ _ _
  | case5 c0 c1 c2 cap => simpa [decode_base64_go] using decode_group_length_le _ _ _ _
  | case6 c0 c1 c2 c3 rest cap ih =>
      simp only [decode_base64_go, List.length_append]
      have h1 := decode_group_length_le
        (((b64_char_val c0 * 64 + b64_char_val c1) * 64 +
          b64_char_val c2) * 64 + b64_char_val c3) c2 c3 cap
      omega

/-- Decoding inverts encoding whenever the output buffer has room for the
whole payload (the inner round-trip induction, three input bytes and four
characters per step). -/
theorem decode_encode_aux (P : List Nat) :
    ∀ cap, (∀ b ∈ P, b < 256) → P.length ≤ cap →
      decode_base64_go (encode_base64 P) cap = P := by
  induction P using encode_base64.induct with
  | case1 =>
      intro cap _ _
      rfl
  | case2 a =>
      intro cap hb hc
      obtain ⟨k, rfl⟩ : ∃ k, cap = k + 1 := ⟨cap - 1, by simp at hc; omega⟩
      have ha : a < 256 := hb a (by simp)
      simp only [encode_base64]
      rw [decode_base64_go]
      · have h0 : a * 65536 / 262144 % 64 < 64 := Nat.mod_lt _ (by norm_num)
        have h1 : a * 65536 / 4096 % 64 < 64 := Nat.mod_lt _ (by norm_num)
        rw [b64_val_of_table _ h0, b64_val_of_table _ h1, b64_val_pad]
        dsimp only [decode_group]
        rw [if_pos (Nat.succ_pos k)]
        rw [if_neg (fun h => h.2 rfl), if_neg (fun h => h.2 rfl)]
        rw [decode_base64_go]
        simp only [List.append_nil, List.nil_append, List.cons.injEq, and_true]
        omega
      · omega
  | case3 a b =>
      intro cap hb hc
      obtain ⟨k, rfl⟩ : ∃ k, cap = k + 2 := ⟨cap - 2, by simp at hc; omega⟩
      have ha : a < 256 := hb a (by simp)
      have hbb : b < 256 := hb b (by simp)
      simp only [encode_base64]
      rw [decode_base64_go]
      · have h0 : (a * 65536 + b * 256) / 262144 % 64 < 64 :=
          Nat.mod_lt _ (by norm_num)
        have h1 : (a * 65536 + b * 256) / 4096 % 64 < 64 :=
          Nat.mod_lt _ (by norm_num)
        have h2 : (a * 65536 + b * 256) / 64 % 64 < 64 :=
          Nat.mod_lt _ (by norm_num)
        rw [b64_val_of_table _ h0, b64_val_of_table _ h1, b64_val_of_table _ h2,
            b64_val_pad]
        dsimp only [decode_group]
        rw [if_pos (Nat.succ_pos (k + 1))]
        rw [if_pos (show ([(_ : Nat)].length < k + 2 ∧
              b64_table.getD ((a * 65536 + b * 256) / 64 % 64) 'A' ≠ '=') from
            ⟨by simp only [List.length_singleton]; omega, b64_table_getD_ne_pad _ h2⟩)]
        rw [if_neg (fun h => h.2 rfl)]
        rw [decode_base64_go]
        simp only [List.append_nil, List.nil_append, List.singleton_append,
                   List.cons.injEq, and_true]
        omega
      · omega
  | case4 a b c rest ih =>
      intro cap hb hc
      obtain ⟨k, rfl⟩ : ∃ k, cap = k + 3 := ⟨cap - 3, by simp at hc; omega⟩
      have ha : a < 256 := hb a (by simp)
      have hbb : b < 256 := hb b (by simp)
      have hcc : c < 256 := hb c (by simp)
      simp only [encode_base64]
      rw [decode_base64_go]
      · have h0 : (a * 65536 + b * 256 + c) / 262144 % 64 < 64 :=
          Nat.mod_lt _ (by norm_num)
        have h1 : (a * 65536 + b * 256 + c) / 4096 % 64 < 64 :=
          Nat.mod_lt _ (by norm_num)
        have h2 : (a * 65536 + b * 256 + c) / 64 % 64 < 64 :=
          Nat.mod_lt _ (by norm_num)
        have h3 : (a * 65536 + b * 256 + c) % 64 < 64 :=
          Nat.mod_lt _ (by norm_num)
        rw [b64_val_of_table _ h0, b64_val_of_table _ h1, b64_val_of_table _ h2,
            b64_val_of_table _ h3]
        dsimp only [decode_group]
        rw [if_pos (Nat.succ_pos (k + 2))]
        rw [if_pos (show ([(_ : Nat)].length < k + 3 ∧
              b64_table.getD ((a * 65536 + b * 256 + c) / 64 % 64) 'A' ≠ '=') from
            ⟨by simp only [List.length_singleton]; omega, b64_table_getD_ne_pad _ h2⟩)]
        rw [if_pos (show (([(_ : Nat)].length + [(_ : Nat)].length < k + 3) ∧
              b64_table.getD ((a * 65536 + b * 256 + c) % 64) 'A' ≠ '=') from
            ⟨by simp only [List.length_singleton]; omega, b64_table_getD_ne_pad _ h3⟩)]
        have hrec := ih k (fun x hx => hb x (by simp [hx]))
          (by simp only [List.length_cons] at hc; omega)
        simp only [List.singleton_append, List.cons_append, List.nil_append,
                   List.length_cons, List.length_singleton, List.length_nil,
                   List.cons.injEq]
        refine ⟨by omega, by omega, by omega, ?_⟩
        exact hrec
      · omega

/-- The encoder emits `⌈len/3⌉ × 4` characters. -/
theorem encode_base64_length (P : List Nat) :
    (encode_base64 P).length = (P.length + 2) / 3 * 4 := by
  induction P using encode_base64.induct with
  | case1 => rfl
  | case2 a => simp [encode_base64]
  | case3 a b => simp [encode_base64]
  | case4 a b c rest ih =>
      simp only [encode_base64, List.length_cons, ih]
      omega

/-- Every character the encoder emits is an alphabet character or the
padding character. -/
theorem encode_base64_alphabet (P : List Nat) :
    ∀ ch ∈ encode_base64 P, ch ∈ b64_table ∨ ch = '=' := by
  induction P using encode_base64.induct with
  | case1 => intro ch h; cases h
  | case2 a =>
      intro ch h
      simp only [encode_base64, List.mem_cons, List.mem_singleton] at h
      rcases h with rfl | rfl | rfl | rfl | h
      · exact .inl (b64_table_getD_mem _ (Nat.mod_lt _ (by norm_num)))
      · exact .inl (b64_table_getD_mem _ (Nat.mod_lt _ (by norm_num)))
      · exact .inr rfl
      · exact .inr rfl
      · cases h
  | case3 a b =>
      intro ch h
      simp only [encode_base64, List.mem_cons, List.mem_singleton] at h
      rcases h with rfl | rfl | rfl | rfl | h
      · exact .inl (b64_table_getD_mem _ (Nat.mod_lt _ (by norm_num)))
      · exact .inl (b64_table_getD_mem _ (Nat.mod_lt _ (by norm_num)))
      · exact .inl (b64_table_getD_mem _ (Nat.mod_lt _ (by norm_num)))
      · exact .inr rfl
      · cases h
  | case4 a b c rest ih =>
      intro ch h
      simp only [encode_base64, List.mem_cons] at h
      rcases h with rfl | rfl | rfl | rfl | h
      · exact .inl (b64_table_getD_mem _ (Nat.mod_lt _ (by norm_num)))
      · exact .inl (b64_table_getD_mem _ (Nat.mod_lt _ (by norm_num)))
      · exact .inl (b64_table_getD_mem _ (Nat.mod_lt _ (by norm_num)))
      · exact .inl (b64_table_getD_mem _ (Nat.mod_lt _ (by norm_num)))
      · exact ih ch h

/-- C4: for every byte sequence of length at most 255, decoding the
encoding (with the 255-byte output bound used by the downlink path)
returns the original bytes; the encoded string has length
`⌈len/3⌉ × 4` including the `'='` padding; and the encoder uses only the
standard base64 alphabet plus padding, with no line wrapping. -/
theorem base64_roundtrip_correct (P : List Nat)
    (hbytes : ∀ b ∈ P, b < 256) (hlen : P.length ≤ 255) :
    decode_base64 (encode_base64 P) 255 = P ∧
    (encode_base64 P).length = (P.length + 2) / 3 * 4 ∧
    ∀ ch ∈ encode_base64 P, ch ∈ b64_table ∨ ch = '=' :=
  ⟨decode_encode_aux P 255 hbytes hlen, encode_base64_length P,
   encode_base64_alphabet P⟩

/-- Witness for C4 at the concrete payload "Hello". -/
theorem base64_roundtrip_correct_witness :
    decode_base64 (encode_base64 [72, 101, 108, 108, 111]) 255 =
      [72, 101, 108, 108, 111] ∧
    (encode_base64 [72, 101, 108, 108, 111]).length =
      ([72, 101, 108, 108, 111].length + 2) / 3 * 4 ∧
    ∀ ch ∈ encode_base64 [72, 101, 108, 108, 111],
      ch ∈ b64_table ∨ ch = '=' :=
  base64_roundtrip_correct [72, 101, 108, 108, 111] (by decide) (by decide)

/-- The packet built from a `txpk` object never carries more than
`LORA_MAX_PAYLOAD_SIZE = 255` payload bytes. -/
theorem parse_txpk_size_le (txpk : Json) :
    (parse_txpk txpk).payload_size ≤ 255 := by
  unfold parse_txpk
  dsimp only
  repeat' split
  all_goals
    first
      | exact decode_base64_go_length_le _ _
      | simp [zeroTxPkt]

/-- C10: `decode_base64` writes at most `max_len` bytes (its result list
is the bytes written and its length is the returned `out_len`), and the
packet `handle_pull_resp` hands to the gateway therefore has
`payload_size ≤ 255`, within the `payload` buffer. -/
theorem decode_base64_bounded (input : List Char) (max_len : Nat)
    (gw : GatewayState) (token : Nat) (parsed : Option Json) :
    (decode_base64 input max_len).length ≤ max_len ∧
    submittedPayloadSize (handle_pull_resp gw token parsed) ≤ 255 := by
  refine ⟨decode_base64_go_length_le input max_len, ?_⟩
  cases parsed with
  | none => simp [handle_pull_resp, submittedPayloadSize]
  | some root =>
      unfold handle_pull_resp
      cases h : cJSON_GetObjectItem root ("txpk") with
      | none => simp [h, submittedPayloadSize]
      | some txpk =>
          simp only [h, submittedPayloadSize]
          split <;> simpa using parse_txpk_size_le txpk

/-- A delivered descriptor is stamped with the clock value of its
interrupt. -/
theorem dio0_rx_done_timestamp (cfg : Sx1276Config) (ev : IsrEvent)
    (pkt : Sx1276RxPkt) (h : dio0_rx_done cfg ev = some pkt) :
    pkt.timestamp = ev.now := by
  unfold dio0_rx_done at h
  split at h
  · cases h
    rfl
  · cases h

/-- The timestamps of a run are the clock values of the events that
produced a descriptor. -/
theorem dio0_rx_run_map_timestamp (cfg : Sx1276Config)
    (events : List IsrEvent) :
    (dio0_rx_run cfg events).map Sx1276RxPkt.timestamp =
      (events.filter (fun e => (dio0_rx_done cfg e).isSome)).map
        IsrEvent.now := by
  induction events with
  | nil => rfl
  | cons e es ih =>
      unfold dio0_rx_run at ih ⊢
      rw [List.filterMap_cons, List.filter_cons]
      cases h : dio0_rx_done cfg e with
      | none => simpa [h] using ih
      | some pkt =>
          simp [h, ih, dio0_rx_done_timestamp cfg e pkt h]

/-- A run over events whose clock values are non-decreasing yields
descriptors with non-decreasing timestamps. -/
theorem dio0_rx_run_timestamps_mono (cfg : Sx1276Config)
    (events : List IsrEvent)
    (hmono : List.Chain' (· ≤ ·) (events.map IsrEvent.now)) :
    List.Chain' (· ≤ ·)
      ((dio0_rx_run cfg events).map Sx1276RxPkt.timestamp) := by
  rw [dio0_rx_run_map_timestamp]
  rw [List.chain'_iff_pairwise] at hmono ⊢
  exact hmono.sublist ((List.filter_sublist events).map IsrEvent.now)

/-- C3: for every simulated DIO0 interrupt with RX_DONE set, FIFO
contents `P` (with `|P| ≤ 255`, as the byte count register is 8-bit),
RSSI register `r`, SNR register `s` and CRC-error IRQ bit `e`, the
descriptor delivered to the RX callback carries payload `P`,
`rssi = r − 157`, `snr = (int8_t) s / 4` (C truncation) and
`crc_ok = !e`; and over any run with a monotone clock the delivered
timestamps are non-decreasing. -/
theorem dio0_descriptor_integrity (cfg : Sx1276Config) (ev : IsrEvent)
    (e : Bool)
    (hrx : ev.irq_flags / 64 % 2 = 1)
    (hlen : ev.fifo.length = ev.rx_nb_bytes)
    (hcrc : (ev.irq_flags / 32 % 2 = 1) ↔ (e = true))
    (events : List IsrEvent)
    (hmono : List.Chain' (· ≤ ·) (events.map IsrEvent.now)) :
    dio0_rx_done cfg ev = some
      { data := ev.fifo, length := ev.rx_nb_bytes,
        rssi := (ev.pkt_rssi : Int) - 157,
        snr := Int.tdiv (int8_of_byte ev.pkt_snr) 4,
        frequency := cfg.frequency, timestamp := ev.now,
        sf := cfg.sf, bw := cfg.bw, cr := cfg.cr, crc_ok := !e } ∧
    List.Chain' (· ≤ ·)
      ((dio0_rx_run cfg events).map Sx1276RxPkt.timestamp) := by
  refine ⟨?_, dio0_rx_run_timestamps_mono cfg events hmono⟩
  unfold dio0_rx_done
  rw [if_pos hrx]
  have hdata : ev.fifo.take ev.rx_nb_bytes = ev.fifo := by
    rw [← hlen]
    exact List.take_length ev.fifo
  have hok : (decide (ev.irq_flags / 32 % 2 = 0)) = !e := by
    have h01 : ev.irq_flags / 32 % 2 = 0 ∨ ev.irq_flags / 32 % 2 = 1 := by
      omega
    cases e with
    | false =>
        have : ¬ ev.irq_flags / 32 % 2 = 1 := fun h => by
          simpa using hcrc.mp h
        rcases h01 with h | h
        · simp [h]
        · exact absurd h this
    | true =>
        have h1 : ev.irq_flags / 32 % 2 = 1 := hcrc.mpr rfl
        simp [h1]
  simp [hdata, hok]

/-- Witness for C3: one concrete RX_DONE interrupt (payload 2 bytes,
RSSI register 118, SNR register 40, CRC good) and a two-event run. -/
theorem dio0_descriptor_integrity_witness :
    dio0_rx_done { frequency := 916800000, sf := 7, bw := 0, cr := 1 }
      { irq_flags := 0x40, rx_nb_bytes := 2, fifo := [0x40, 0x11],
        pkt_rssi := 118, pkt_snr := 40, now := 1000 } = some
      { data := [0x40, 0x11], length := 2,
        rssi := (118 : Int) - 157,
        snr := Int.tdiv (int8_of_byte 40) 4,
        frequency := 916800000, timestamp := 1000,
        sf := 7, bw := 0, cr := 1, crc_ok := !false } ∧
    List.Chain' (· ≤ ·)
      ((dio0_rx_run { frequency := 916800000, sf := 7, bw := 0, cr := 1 }
        [{ irq_flags := 0x40, rx_nb_bytes := 2, fifo := [0x40, 0x11],
           pkt_rssi := 118, pkt_snr := 40, now := 1000 },
         { irq_flags := 0x60, rx_nb_bytes := 1, fifo := [0xFF],
           pkt_rssi := 100, pkt_snr := 248, now := 1500 }]).map
        Sx1276RxPkt.timestamp) :=
  dio0_descriptor_integrity
    { frequency := 916800000, sf := 7, bw := 0, cr := 1 }
    { irq_flags := 0x40, rx_nb_bytes := 2, fifo := [0x40, 0x11],
      pkt_rssi := 118, pkt_snr := 40, now := 1000 }
    false (by decide) (by decide) (by decide)
    [{ irq_flags := 0x40, rx_nb_bytes := 2, fifo := [0x40, 0x11],
       pkt_rssi := 118, pkt_snr := 40, now := 1000 },
     { irq_flags := 0x60, rx_nb_bytes := 1, fifo := [0xFF],
       pkt_rssi := 100, pkt_snr := 248, now := 1500 }]
    (by simp)

/-- No event changes the running flag (stop is a separate API call, not
an event of this trace model). -/
theorem pf_step_running (s : PfState) (e : PfEvent) :
    (pf_step s e).running = s.running := by
  cases e with
  | udp now buf =>
      show (pf_rx_dispatch s now buf).running = s.running
      unfold pf_rx_dispatch
      dsimp only
      split_ifs <;> rfl
  | keepalive now =>
      show (keepalive_callback s now).running = s.running
      unfold keepalive_callback send_pull_data
      dsimp only
      split_ifs <;> rfl

/-- A disconnected engine stays disconnected across any event that is not
a PULL_ACK datagram. -/
theorem pf_step_preserves_disconnected (s : PfState) (e : PfEvent)
    (hc : s.status.connected = false) (hnp : ¬ isPullAckEvent e) :
    (pf_step s e).status.connected = false := by
  cases e with
  | udp now buf =>
      show (pf_rx_dispatch s now buf).status.connected = false
      unfold pf_rx_dispatch
      dsimp only
      split_ifs <;>
        first
          | exact hc
          | exact absurd
              (show isPullAckEvent (PfEvent.udp now buf) from
                ⟨by omega, by omega, by omega⟩) hnp
  | keepalive now =>
      show (keepalive_callback s now).status.connected = false
      unfold keepalive_callback send_pull_data
      dsimp only
      split_ifs <;> simp_all

/-- A disconnected engine stays disconnected across any PULL_ACK-free
trace. -/
theorem pf_run_preserves_disconnected (evs : List PfEvent) :
    ∀ (s : PfState), s.status.connected = false →
      (∀ e ∈ evs, ¬ isPullAckEvent e) →
      (pf_run s evs).status.connected = false := by
  induction evs with
  | nil => intro s hc _; exact hc
  | cons e es ih =>
      intro s hc hnp
      exact ih (pf_step s e)
        (pf_step_preserves_disconnected s e hc (hnp e (by simp)))
        (fun x hx => hnp x (by simp [hx]))

/-- The running flag survives a whole trace. -/
theorem pf_run_running (evs : List PfEvent) :
    ∀ s : PfState, (pf_run s evs).running = s.running := by
  induction evs with
  | nil => intro s; rfl
  | cons e es ih =>
      intro s
      rw [pf_run, ih, pf_step_running]

/-- C5: a received PULL_ACK datagram sets the connected flag; a keepalive
tick with no PULL_ACK inside the 30-second window clears it; after boot
(init + start), any PULL_ACK-free trace leaves the engine disconnected —
in particular a trace ending in a stale keepalive tick — and the first
subsequent PULL_ACK reconnects it. -/
theorem pf_connected_liveness (s : PfState) (now now2 : Int)
    (buf : List Nat) (cfg : PfConfig) (evs : List PfEvent)
    (hrun : s.running = true)
    (hpa : isPullAckEvent (.udp now buf))
    (hstale : now2 - s.last_pull_ack > 30000000)
    (hnp : ∀ e ∈ evs, ¬ isPullAckEvent e) :
    (pf_rx_dispatch s now buf).status.connected = true ∧
    (keepalive_callback s now2).status.connected = false ∧
    (pf_run (pf_boot cfg) evs).status.connected = false ∧
    (pf_step (pf_run (pf_boot cfg) evs) (.udp now buf)).status.connected
      = true := by
  obtain ⟨hl, h0, h3⟩ := hpa
  have dispatch_connects : ∀ t : PfState, t.running = true →
      (pf_rx_dispatch t now buf).status.connected = true := by
    intro t ht
    unfold pf_rx_dispatch
    dsimp only
    split_ifs <;> first | rfl | (exfalso; omega)
  refine ⟨dispatch_connects s hrun, ?_, ?_, ?_⟩
  · unfold keepalive_callback send_pull_data
    dsimp only
    split_ifs <;> first | rfl | simp_all
  · exact pf_run_preserves_disconnected evs (pf_boot cfg) rfl hnp
  · exact dispatch_connects (pf_run (pf_boot cfg) evs)
      (by rw [pf_run_running]; rfl)

/-- Witness for C5: a freshly booted forwarder, one stale keepalive tick
at t = 40 s, then a PULL_ACK datagram. -/
theorem pf_connected_liveness_witness :
    (pf_rx_dispatch (pf_boot sampleCfg) 100 [2, 0, 0, 4]).status.connected
      = true ∧
    (keepalive_callback (pf_boot sampleCfg) 40000000).status.connected
      = false ∧
    (pf_run (pf_boot sampleCfg)
      [PfEvent.keepalive 40000000]).status.connected = false ∧
    (pf_step (pf_run (pf_boot sampleCfg) [PfEvent.keepalive 40000000])
      (.udp 100 [2, 0, 0, 4])).status.connected = true :=
  pf_connected_liveness (pf_boot sampleCfg) 100 40000000 [2, 0, 0, 4]
    sampleCfg [PfEvent.keepalive 40000000] (by decide) (by decide)
    (by decide) (by decide)

/-- C9: the lifecycle operations are idempotent: a second
`pkt_fwd_init`, `pkt_fwd_start`, `lora_gateway_init` or
`lora_gateway_start` on an already initialized/running engine or gateway
returns `ESP_OK` and leaves the state unchanged. -/
theorem lifecycle_idempotent (s : PfState) (cfg : PfConfig) (dns : Bool)
    (g : GatewayState) (radios_ok : Bool) (now : Nat)
    (hsi : s.inited = true) (hsr : s.running = true)
    (hgi : g.inited = true) (hgr : g.running = true) :
    pkt_fwd_init s cfg = (.ok, s) ∧
    pkt_fwd_start s dns = (.ok, s) ∧
    lora_gateway_init g radios_ok = (.ok, g) ∧
    lora_gateway_start g now = (.ok, g) := by
  refine ⟨?_, ?_, ?_, ?_⟩
  · unfold pkt_fwd_init
    rw [if_pos hsi]
  · unfold pkt_fwd_start
    rw [if_neg (by simp [hsi]), if_pos hsr]
  · unfold lora_gateway_init
    rw [if_pos hgi]
  · unfold lora_gateway_start
    rw [if_neg (by simp [hgi]), if_pos hgr]

/-- Witness for C9 at a booted forwarder and a running gateway. -/
theorem lifecycle_idempotent_witness :
    pkt_fwd_init (pf_boot sampleCfg) sampleCfg = (.ok, pf_boot sampleCfg) ∧
    pkt_fwd_start (pf_boot sampleCfg) false = (.ok, pf_boot sampleCfg) ∧
    lora_gateway_init gwRunning false = (.ok, gwRunning) ∧
    lora_gateway_start gwRunning 0 = (.ok, gwRunning) :=
  lifecycle_idempotent (pf_boot sampleCfg) sampleCfg false gwRunning
    false 0 (by decide) (by decide) (by decide) (by decide)

/-- C8: with no persisted EUI, the default configuration synthesises the
8-byte gateway EUI from the 6-byte device MAC as
`MAC[0], MAC[1], MAC[2], 0xFF, 0xFE, MAC[3], MAC[4], MAC[5]`. -/
theorem gw_default_eui_layout (m0 m1 m2 m3 m4 m5 : Nat) :
    (gw_config_defaults [m0, m1, m2, m3, m4, m5]).gateway_eui =
      [m0, m1, m2, 0xFF, 0xFE, m3, m4, m5] := rfl

/-- C7: `sx1276_set_tx_power` saturates the requested power to
`[2, 20]` dBm, programs the +20 dBm boost DAC (0x87) exactly when the
saturated power lies in 18–20 dBm and the default DAC (0x84) otherwise,
always keeps the PA_BOOST bit (0x80) set in PA_CONFIG, and programs the
overcurrent protection to 0x2B (≈100 mA). -/
theorem sx1276_tx_power_policy (power : Int) :
    (sx1276_set_tx_power power).stored_power = max 2 (min 20 power) ∧
    2 ≤ (sx1276_set_tx_power power).stored_power ∧
    (sx1276_set_tx_power power).stored_power ≤ 20 ∧
    ((sx1276_set_tx_power power).pa_dac = 0x87 ↔
      18 ≤ max 2 (min 20 power)) ∧
    ((sx1276_set_tx_power power).pa_dac = 0x87 ∨
      (sx1276_set_tx_power power).pa_dac = 0x84) ∧
    128 ≤ (sx1276_set_tx_power power).pa_config ∧
    (sx1276_set_tx_power power).pa_config ≤ 255 ∧
    (sx1276_set_tx_power power).ocp = 0x2B := by
  unfold sx1276_set_tx_power
  dsimp only
  split_ifs with h1 h2 h3 h4 <;>
    refine ⟨?_, ?_, ?_, ?_, ?_, ?_, ?_, rfl⟩ <;>
    dsimp only <;> omega

/-- C1 (amended): for a dequeued `At(t)` request with wrap-aware delta
`Δ = (int32_t)(t − now)`: when `0 < Δ < 5_000_000` µs the worker waits
until `now ≥ t` and transmits; when `Δ < −100_000` µs the packet is
discarded (skipped with only a log); in every other case — including
`Δ ≥ 5_000_000` — it is transmitted immediately.  `Immediate` requests
always transmit at once, and no path of the timing check updates any
gateway statistics counter. -/
theorem cm_tx_timing_windows (pkt : LoraTxPkt) (now : Nat)
    (stats : GatewayStats) (delta : Int)
    (hd : delta = int32_of_uint32 (u32_sub pkt.tx_timestamp now)) :
    (pkt.immediate = true →
      cm_tx_check_timing pkt.immediate pkt.tx_timestamp now =
        .transmitNow) ∧
    (pkt.immediate = false → 0 < delta → delta < 5000000 →
      cm_tx_check_timing pkt.immediate pkt.tx_timestamp now =
        .waitUntilThenTransmit) ∧
    (pkt.immediate = false → delta < -100000 →
      cm_tx_check_timing pkt.immediate pkt.tx_timestamp now = .skip) ∧
    (pkt.immediate = false → -100000 ≤ delta → delta ≤ 0 →
      cm_tx_check_timing pkt.immediate pkt.tx_timestamp now =
        .transmitNow) ∧
    (pkt.immediate = false → 5000000 ≤ delta →
      cm_tx_check_timing pkt.immediate pkt.tx_timestamp now =
        .transmitNow) ∧
    (cm_tx_process_one pkt now stats).2 = stats := by
  subst hd
  refine ⟨?_, ?_, ?_, ?_, ?_, rfl⟩ <;>
    intro him <;>
    simp only [cm_tx_check_timing, him, Bool.false_eq_true, if_false,
               if_true] <;>
    intros <;>
    split_ifs <;>
    first | rfl | (exfalso; omega)

/-- Witness for C1 at `now = 1_000_000`, `At(1_050_000)` (Δ = 50_000):
the worker waits and then transmits. -/
theorem cm_tx_timing_windows_witness :
    cm_tx_check_timing
      ({ zeroTxPkt with immediate := false, tx_timestamp := 1050000
       } : LoraTxPkt).immediate
      ({ zeroTxPkt with immediate := false, tx_timestamp := 1050000
       } : LoraTxPkt).tx_timestamp 1000000 = .waitUntilThenTransmit :=
  ((((cm_tx_timing_windows
      { zeroTxPkt with immediate := false, tx_timestamp := 1050000 }
      1000000 zeroStats 50000 (by decide)).2).1) rfl (by decide)
        (by decide))

/-- Counterexample to C1 as stated: at `now = 1_000_000`, a request for
`At(7_000_000)` has `Δ = 6_000_000 > 5_000_000`, so the claim requires a
discard (with a tx_fail increment), but the worker transmits
immediately. -/
theorem cm_tx_timing_counterexample :
    int32_of_uint32 (u32_sub 7000000 1000000) = 6000000 ∧
    (5000000 : Int) < 6000000 ∧
    cm_tx_check_timing false 7000000 1000000 = .transmitNow ∧
    TxDecision.transmitNow ≠ TxDecision.skip := by
  refine ⟨by decide, by decide, ?_, by decide⟩
  decide

/-- C2 (amended): every PULL_RESP datagram (that reached the dispatcher)
produces exactly one TX_ACK, whose error field is INVALID_JSON when the
JSON does not parse, MISSING_TXPK when the txpk object is absent, no
error when the gateway accepts the request, and TX_FAILED — regardless
of the reason — when it rejects it. -/
theorem pull_resp_ack_policy (gw : GatewayState) (token : Nat)
    (parsed : Option Json) :
    (handle_pull_resp gw token parsed).acks.length = 1 ∧
    (parsed = none →
      (handle_pull_resp gw token parsed).acks =
        [(token, some ("INVALID_JSON"))]) ∧
    (∀ root, parsed = some root →
      cJSON_GetObjectItem root ("txpk") = none →
      (handle_pull_resp gw token parsed).acks =
        [(token, some ("MISSING_TXPK"))]) ∧
    (∀ root txpk, parsed = some root →
      cJSON_GetObjectItem root ("txpk") = some txpk →
      ((lora_gateway_send gw (parse_txpk txpk)).1 = .ok →
        (handle_pull_resp gw token parsed).acks = [(token, none)]) ∧
      ((lora_gateway_send gw (parse_txpk txpk)).1 ≠ .ok →
        (handle_pull_resp gw token parsed).acks =
          [(token, some ("TX_FAILED"))])) := by
  refine ⟨?_, ?_, ?_, ?_⟩
  · cases parsed with
    | none => rfl
    | some root =>
        unfold handle_pull_resp
        cases h : cJSON_GetObjectItem root ("txpk") with
        | none => simp [h]
        | some txpk =>
            simp only [h]
            split_ifs <;> rfl
  · intro hp
    subst hp
    rfl
  · intro root hp h
    subst hp
    unfold handle_pull_resp
    simp only [h]
  · intro root txpk hp h
    subst hp
    unfold handle_pull_resp
    simp only [h]
    constructor
    · intro hok
      rw [if_pos hok]
    · intro hko
      rw [if_neg hko]

/-- Witness for C2: a PULL_RESP with a parsed `txpk` accepted by a
running gateway with a free TX queue yields the single no-error TX_ACK. -/
theorem pull_resp_ack_policy_witness :
    (handle_pull_resp gwRunning 5 (some sampleTxpkRoot)).acks.length = 1 ∧
    (handle_pull_resp gwRunning 5 (some sampleTxpkRoot)).acks =
      [(5, none)] :=
  ⟨(pull_resp_ack_policy gwRunning 5 (some sampleTxpkRoot)).1,
   (((pull_resp_ack_policy gwRunning 5 (some sampleTxpkRoot)).2.2.2
      sampleTxpkRoot (Json.obj []) rfl rfl).1) rfl⟩

/-- Counterexample to C2 as stated: when the gateway rejects the request
(here: the 16-slot TX queue is full, the busy case), the emitted TX_ACK
error is the blanket TX_FAILED, not one of the outcome-specific codes
(TOO_LATE / TOO_EARLY / a busy code) the claim requires. -/
theorem pull_resp_ack_counterexample :
    (handle_pull_resp gwBusy 7 (some sampleTxpkRoot)).acks =
      [(7, some ("TX_FAILED"))] ∧
    (("TX_FAILED") : String) ≠ ("TOO_LATE") ∧
    (("TX_FAILED") : String) ≠ ("TOO_EARLY") := by
  refine ⟨?_, by decide, by decide⟩
  rfl

/-- C6 (amended): overflow on the bounded queues drops the newest
element: a full 32-slot uplink queue makes `pkt_fwd_send_uplink` drop the
packet and return `ESP_ERR_NO_MEM` with the whole forwarder state — and
hence every counter — unchanged; a full 32-slot gateway RX queue makes
the ISR-side handler (which uses the non-blocking `xQueueSendFromISR`)
drop the descriptor, leaving the queue unchanged; and a full 16-slot TX
queue propagates `ESP_ERR_NO_MEM` through `lora_gateway_send`, which
counts the drop in `tx_fail`.  Non-full queues accept the new element at
the tail. -/
theorem queue_overflow_policy (pf : PfState) (p : LoraRxPkt)
    (gw : GatewayState) (q : LoraTxPkt)
    (hpr : pf.running = true) (hgr : gw.running = true)
    (hcm : gw.cm.running = true) :
    (pf.uplink_queue.length < 32 →
      pkt_fwd_send_uplink pf p =
        (.ok, { pf with uplink_queue := pf.uplink_queue ++ [p] })) ∧
    (32 ≤ pf.uplink_queue.length →
      pkt_fwd_send_uplink pf p = (.noMem, pf)) ∧
    (32 ≤ gw.rx_queue.length →
      (lora_gateway_rx_handler gw p).rx_queue = gw.rx_queue) ∧
    (gw.cm.tx_queue.length < 16 →
      lora_gateway_send gw q =
        (.ok, { gw with
          stats := { gw.stats with tx_total := gw.stats.tx_total + 1 },
          cm := { gw.cm with tx_queue := gw.cm.tx_queue ++ [q] } })) ∧
    (16 ≤ gw.cm.tx_queue.length →
      lora_gateway_send gw q =
        (.noMem, { gw with
          stats := { gw.stats with
            tx_total := gw.stats.tx_total + 1,
            tx_fail := gw.stats.tx_fail + 1 } })) := by
  refine ⟨?_, ?_, ?_, ?_, ?_⟩
  · intro h
    unfold pkt_fwd_send_uplink
    rw [if_neg (by simp [hpr]), if_pos h]
  · intro h
    unfold pkt_fwd_send_uplink
    rw [if_neg (by simp [hpr]), if_neg (by omega)]
  · intro h
    unfold lora_gateway_rx_handler
    rw [if_neg (by simp [hgr])]
    dsimp only
    rw [if_neg (by omega)]
  · intro h
    have hsched : channel_manager_schedule_tx gw.cm q =
        (.ok, { gw.cm with tx_queue := gw.cm.tx_queue ++ [q] }) := by
      unfold channel_manager_schedule_tx
      rw [if_neg (by simp [hcm]), if_pos h]
    unfold lora_gateway_send
    rw [if_neg (by simp [hgr])]
    dsimp only
    rw [hsched]
    rfl
  · intro h
    have hsched : channel_manager_schedule_tx gw.cm q =
        (.noMem, gw.cm) := by
      unfold channel_manager_schedule_tx
      rw [if_neg (by simp [hcm]), if_neg (by omega)]
    unfold lora_gateway_send
    rw [if_neg (by simp [hgr])]
    dsimp only
    rw [hsched]
    rfl

/-- Witness for C6: an empty uplink queue accepts a packet; the full
states are exercised by the counterexample. -/
theorem queue_overflow_policy_witness :
    pkt_fwd_send_uplink (pf_boot sampleCfg) sampleRxPkt =
      (.ok, { pf_boot sampleCfg with
        uplink_queue := (pf_boot sampleCfg).uplink_queue ++
          [sampleRxPkt] }) ∧
    lora_gateway_send gwBusy zeroTxPkt =
      (.noMem, { gwBusy with
        stats := { gwBusy.stats with
          tx_total := gwBusy.stats.tx_total + 1,
          tx_fail := gwBusy.stats.tx_fail + 1 } }) :=
  ⟨(queue_overflow_policy (pf_boot sampleCfg) sampleRxPkt gwBusy zeroTxPkt
      (by decide) (by decide) (by decide)).1 (by decide),
   (queue_overflow_policy (pf_boot sampleCfg) sampleRxPkt gwBusy zeroTxPkt
      (by decide) (by decide) (by decide)).2.2.2.2 (by decide)⟩

/-- Counterexample to C6 as stated: enqueueing onto the full 32-slot
uplink queue drops the newest packet but returns with the state — and so
every counter — bit-for-bit unchanged: no drop counter exists on this
path. -/
theorem queue_overflow_counterexample :
    pkt_fwd_send_uplink pfFull sampleRxPkt = (.noMem, pfFull) ∧
    (pkt_fwd_send_uplink pfFull sampleRxPkt).2.status = pfFull.status := by
  refine ⟨?_, ?_⟩ <;> rfl
